import Mathlib

/-!
# Verification of the AdaDesktopCompanion particle rendering core

Shallow embedding of `src/server/particle_renderer.py` and
`src/server/screen_engine.py` over exact rational arithmetic (`ℚ` stands
for the Python floats, so all lerp/clamp algebra is exact).  Python
`random.*` draws and the transcendental functions `math.sin / cos /
atan2 / sqrt / radians` have no rational counterpart; they are passed in
as explicit parameters (a draw stream, a `RealFuns` record), so every
theorem quantifies over them.  `PIL` drawing calls are modelled as pure
draw-command construction.
-/

/-- Python `int(x)` on a float: truncation toward zero. -/
def ratTrunc (q : ℚ) : ℤ := if q < 0 then ⌈q⌉ else ⌊q⌋

/-- `_lerp` from `screen_engine.py`: `a + (b - a) * max(0.0, min(1.0, t))`. -/
def lerpPy (a b t : ℚ) : ℚ := a + (b - a) * max 0 (min 1 t)

/-- Round-half-to-even on `ℚ`, the tie-breaking rule of Python `round`. -/
def roundHalfEven (q : ℚ) : ℤ :=
  if q - ⌊q⌋ < 1/2 then ⌊q⌋
  else if 1/2 < q - ⌊q⌋ then ⌊q⌋ + 1
  else if 2 ∣ ⌊q⌋ then ⌊q⌋ else ⌊q⌋ + 1

/-- Python `round(x, n)` for nonnegative `n`, on exact rationals. -/
def pyRound (n : ℕ) (q : ℚ) : ℚ := (roundHalfEven (q * 10 ^ n) : ℚ) / 10 ^ n

/-- Emotional state held by `ScreenEngine` (`screen_engine.py`, `__init__`). -/
structure ScreenEngineState where
  valence : ℚ := 0
  arousal : ℚ := 3/10
  certainty : ℚ := 1/2
  mode : String := "IDLE"
deriving DecidableEq

/-- `ScreenEngine.set_emotional_state`: clamp each provided value, store the
mode verbatim, leave `None` arguments alone. -/
def set_emotional_state (st : ScreenEngineState)
    (valence arousal certainty : Option ℚ) (mode : Option String) :
    ScreenEngineState :=
  let st1 := match valence with
    | some v => { st with valence := max (-1) (min 1 v) }
    | none => st
  let st2 := match arousal with
    | some a => { st1 with arousal := max 0 (min 1 a) }
    | none => st1
  let st3 := match certainty with
    | some c => { st2 with certainty := max 0 (min 1 c) }
    | none => st2
  match mode with
  | some m => { st3 with mode := m }
  | none => st3

/-- The dict returned by `ScreenEngine._build_particle_config`. -/
structure BuiltConfig where
  particle_count : ℤ
  particle_size : ℚ
  particle_speed : ℚ
  dispersion : ℚ
  opacity : ℚ
  shape : String
  animation : String
  link_count : ℤ
  link_opacity : ℚ
  bg_color : String
  color_mode : String
  pulse_speed : ℚ
  rotation_speed : ℚ
deriving DecidableEq

/-- `ScreenEngine._build_particle_config`, translated line by line.  The
mode branch computes (animation, rotation_speed, dispersion,
particle_speed, pulse_speed). -/
def build_particle_config (st : ScreenEngineState) : BuiltConfig :=
  let particle_speed := lerpPy (3/10) 3 st.arousal
  let dispersion := lerpPy 10 100 st.arousal
  let pulse_speed := lerpPy (1/2) 3 st.arousal
  let valence_norm := (st.valence + 1) / 2
  let particle_size := lerpPy (3/2) 5 valence_norm
  let particle_count := ratTrunc (lerpPy 300 1500 st.certainty)
  let link_count := ratTrunc (lerpPy 0 80 st.certainty)
  let opacity := lerpPy (1/2) 1 st.certainty
  let mo : String × ℚ × ℚ × ℚ × ℚ :=
    if st.mode = "THINKING" then
      ("swirl_inward", 2, lerpPy 10 40 st.arousal, max particle_speed 1, pulse_speed)
    else if st.mode = "TALKING" then
      ("pulse_outward", 0, dispersion, max particle_speed (3/2), max pulse_speed (3/2))
    else if st.mode = "LISTENING" then
      ("float", 0, min dispersion 30, min particle_speed (4/5), pulse_speed)
    else if st.mode = "IDLE" then
      ("drift", 0, dispersion, min particle_speed (1/2), min pulse_speed (4/5))
    else
      ("float", 0, dispersion, particle_speed, pulse_speed)
  { particle_count := particle_count
    particle_size := pyRound 1 particle_size
    particle_speed := pyRound 2 mo.2.2.2.1
    dispersion := pyRound 1 mo.2.2.1
    opacity := pyRound 2 opacity
    shape := "circle"
    animation := mo.1
    link_count := link_count
    link_opacity := 1/5
    bg_color := "#000000"
    color_mode := "original"
    pulse_speed := pyRound 2 mo.2.2.2.2
    rotation_speed := pyRound 2 mo.2.1 }

/-- `ScreenEngine._broadcast` send loop: walk the subscriber collection
once, attempting one `ws.send` per subscriber, collecting the ones whose
send raised.  Returns (attempted sends in order, dead set). -/
def broadcastSends : List ℕ → (ℕ → Bool) → List ℕ × List ℕ
  | [], _ => ([], [])
  | ws :: rest, fails =>
    let r := broadcastSends rest fails
    (ws :: r.1, if fails ws then ws :: r.2 else r.2)

/-- `ScreenEngine._broadcast`: early return on an empty subscriber set,
otherwise send once to each subscriber and then discard every dead one.
The subscriber set is modelled as a list (its iteration order); a send
failure is modelled by the predicate `fails`.  Result: (send attempts in
order, surviving subscriber set). -/
def broadcast (subs : List ℕ) (fails : ℕ → Bool) : List ℕ × List ℕ :=
  if subs.isEmpty then ([], subs)
  else
    let r := broadcastSends subs fails
    (r.1, subs.filter (fun ws => !(r.2.contains ws)))

/-- `Particle` dataclass from `particle_renderer.py`. -/
structure Particle where
  x : ℚ := 0
  y : ℚ := 0
  home_x : ℚ := 0
  home_y : ℚ := 0
  target_home_x : ℚ := 0
  target_home_y : ℚ := 0
  r : ℤ := 0
  g : ℤ := 200
  b : ℤ := 200
  target_r : ℤ := 0
  target_g : ℤ := 200
  target_b : ℤ := 200
  opacity : ℚ := 0
  target_opacity : ℚ := 1
  morphing : Bool := false
  angle_xy : ℚ := 0
  angle_xz : ℚ := 0
  angular_speed_xy : ℚ := 0
  angular_speed_xz : ℚ := 0
  orbit_radius : ℚ := 0
  phase : ℚ := 0
deriving DecidableEq, Inhabited

/-- `ParticleConfig` dataclass from `particle_renderer.py`. -/
structure ParticleConfig where
  particle_count : ℤ := 350
  particle_size : ℚ := 4
  particle_speed : ℚ := 1
  dispersion : ℚ := 30
  opacity : ℚ := 1
  shape : String := "circle"
  animation : String := "float"
  pulse_speed : ℚ := 1
  rotation_speed : ℚ := 0
  bg_color : String := "#000000"
  link_count : ℤ := 0
  link_opacity : ℚ := 1/5
  color_mode : String := "original"
deriving DecidableEq, Inhabited

/-- The mutable state of a `ParticleRenderer` instance. -/
structure ParticleRenderer where
  width : ℚ := 466
  height : ℚ := 466
  particles : List Particle := []
  config : ParticleConfig := {}
  target_config : ParticleConfig := {}
  global_rotation : ℚ := 0
  pulse_phase : ℚ := 0
  has_image : Bool := false
  clearing : Bool := false
  jpeg_quality : ℤ := 80
deriving DecidableEq, Inhabited

/-- The transcendental `math.*` functions used by `update`; irrational on
real inputs, so supplied as an oracle parameter of the embedding. -/
structure RealFuns where
  sin : ℚ → ℚ
  cos : ℚ → ℚ
  atan2 : ℚ → ℚ → ℚ
  sqrt : ℚ → ℚ
  radians : ℚ → ℚ

/-- A concrete oracle used to evaluate the model on explicit inputs. -/
def trivialRealFuns : RealFuns :=
  { sin := fun _ => 0
    cos := fun _ => 0
    atan2 := fun _ _ => 0
    sqrt := fun _ => 0
    radians := fun _ => 0 }

/-- The config-lerp block at the top of `ParticleRenderer.update`: numeric
fields ease by `t = min(1.0, 3.0*dt)`, discrete fields snap. -/
def lerpConfig (cfg tgt : ParticleConfig) (t : ℚ) : ParticleConfig :=
  { cfg with
    particle_size := cfg.particle_size + (tgt.particle_size - cfg.particle_size) * t
    particle_speed := cfg.particle_speed + (tgt.particle_speed - cfg.particle_speed) * t
    dispersion := cfg.dispersion + (tgt.dispersion - cfg.dispersion) * t
    opacity := cfg.opacity + (tgt.opacity - cfg.opacity) * t
    pulse_speed := cfg.pulse_speed + (tgt.pulse_speed - cfg.pulse_speed) * t
    rotation_speed := cfg.rotation_speed + (tgt.rotation_speed - cfg.rotation_speed) * t
    link_opacity := cfg.link_opacity + (tgt.link_opacity - cfg.link_opacity) * t
    animation := tgt.animation
    shape := tgt.shape
    bg_color := tgt.bg_color
    particle_count := tgt.particle_count
    link_count := tgt.link_count }

/-- The morphing block of the per-particle update: ease home position and
color toward their targets at rate `2.0/s` (colors pass through Python
`int()`), clearing the flag once the positional delta drops below 1. -/
def morphStep (dt : ℚ) (p : Particle) : Particle :=
  if p.morphing then
    let ms := 2 * dt
    let hx := p.home_x + (p.target_home_x - p.home_x) * ms
    let hy := p.home_y + (p.target_home_y - p.home_y) * ms
    let r := ratTrunc ((p.r : ℚ) + ((p.target_r : ℚ) - (p.r : ℚ)) * ms)
    let g := ratTrunc ((p.g : ℚ) + ((p.target_g : ℚ) - (p.g : ℚ)) * ms)
    let b := ratTrunc ((p.b : ℚ) + ((p.target_b : ℚ) - (p.b : ℚ)) * ms)
    { p with home_x := hx, home_y := hy, r := r, g := g, b := b,
             morphing := !(|hx - p.target_home_x| + |hy - p.target_home_y| < 1) }
  else p

/-- Directional easing of an opacity value toward `target_op` at rate
`2.0/s`, never overshooting the target. -/
def easeOpacity (target_op dt op : ℚ) : ℚ :=
  if op < target_op then min target_op (op + 2 * dt)
  else if target_op < op then max target_op (op - 2 * dt)
  else op

/-- The opacity block of the per-particle update: ease toward `0` when the
field is clearing, else toward `target_opacity * config.opacity`. -/
def opacityStep (clearing : Bool) (cfgOpacity dt : ℚ) (p : Particle) : ℚ :=
  easeOpacity (if clearing then 0 else p.target_opacity * cfgOpacity) dt p.opacity

/-- The full per-particle body of the `for i, p in enumerate` loop of
`ParticleRenderer.update` for an active particle (index below
`effective_count`). -/
def stepParticle (F : RealFuns) (cfg : ParticleConfig) (clearing : Bool)
    (pulse_phase global_rotation cx cy dt : ℚ) (p : Particle) : Particle :=
  let p1 := morphStep dt p
  let op := opacityStep clearing cfg.opacity dt p1
  let axy := p1.angle_xy + p1.angular_speed_xy * cfg.particle_speed * dt
  let axz := p1.angle_xz + p1.angular_speed_xz * cfg.particle_speed * dt
  let target_radius := cfg.dispersion * (1/2 + 1/2 * F.sin (p1.phase + pulse_phase))
  let orad := p1.orbit_radius + (target_radius - p1.orbit_radius) * 2 * dt
  let anim : ℚ × ℚ :=
    if cfg.animation = "float" then
      (F.cos axy * orad, F.sin axz * orad)
    else if cfg.animation = "drift" then
      (F.cos (axy * (3/10)) * orad * (1/2), F.sin (axz * (3/10)) * orad * (1/2))
    else if cfg.animation = "swirl_inward" then
      let dx := p1.home_x - cx
      let dy := p1.home_y - cy
      let angle := F.atan2 dy dx + axy
      let pull := 7/10 + 3/10 * F.sin (pulse_phase + p1.phase)
      (F.cos angle * orad * pull - dx * (1/10) * F.sin pulse_phase,
       F.sin angle * orad * pull - dy * (1/10) * F.sin pulse_phase)
    else if cfg.animation = "pulse_outward" then
      let dx := p1.home_x - cx
      let dy := p1.home_y - cy
      let dist := F.sqrt (dx * dx + dy * dy) + 1
      let pulse_wave := F.sin (pulse_phase - dist * (2/100))
      let push := pulse_wave * cfg.dispersion * (3/10)
      (F.cos axy * orad + dx / dist * push, F.sin axz * orad + dy / dist * push)
    else (0, 0)
  let anim2 :=
    if 1/100 < |cfg.rotation_speed| then
      let rad := F.radians global_rotation
      (anim.1 * F.cos rad - anim.2 * F.sin rad,
       anim.1 * F.sin rad + anim.2 * F.cos rad)
    else anim
  let lerp := min 1 (4 * dt)
  { p1 with
    x := p1.x + (p1.home_x + anim2.1 - p1.x) * lerp
    y := p1.y + (p1.home_y + anim2.2 - p1.y) * lerp
    opacity := op
    angle_xy := axy
    angle_xz := axz
    orbit_radius := orad }

/-- The excess-particle branch (`i >= effective_count`): opacity decays by
`2.0*dt`, clamped at 0; nothing else changes. -/
def fadeParticle (dt : ℚ) (p : Particle) : Particle :=
  { p with opacity := max 0 (p.opacity - 2 * dt) }

/-- The `for i, p in enumerate(self.particles)` loop of `update`. -/
def integrateParticles (F : RealFuns) (cfg : ParticleConfig) (clearing : Bool)
    (pulse_phase global_rotation cx cy dt : ℚ) (eff : ℤ) :
    ℕ → List Particle → List Particle
  | _, [] => []
  | i, p :: ps =>
    (if eff ≤ (i : ℤ) then fadeParticle dt p
     else stepParticle F cfg clearing pulse_phase global_rotation cx cy dt p)
      :: integrateParticles F cfg clearing pulse_phase global_rotation cx cy dt eff (i + 1) ps

/-- `ParticleRenderer.update` up to (but excluding) the final pruning
list-comprehension: config lerp and snap, global accumulators, and the
per-particle integration loop. -/
def ParticleRenderer.preprune (st : ParticleRenderer) (F : RealFuns) (dt : ℚ) :
    ParticleRenderer :=
  let t := min 1 (3 * dt)
  let cfg := lerpConfig st.config st.target_config t
  let gr := st.global_rotation + cfg.rotation_speed * dt
  let pp := st.pulse_phase + cfg.pulse_speed * dt
  let cx := st.width / 2
  let cy := st.height / 2
  let eff : ℤ := min (st.particles.length : ℤ) cfg.particle_count
  { st with
    config := cfg
    global_rotation := gr
    pulse_phase := pp
    particles := integrateParticles F cfg st.clearing pp gr cx cy dt eff 0 st.particles }

/-- `ParticleRenderer.update(dt)`: integrate, then keep exactly the
particles satisfying `p.opacity > 0.01 or p.morphing, or not self.clearing`. -/
def ParticleRenderer.update (st : ParticleRenderer) (F : RealFuns) (dt : ℚ) :
    ParticleRenderer :=
  let st1 := st.preprune F dt
  { st1 with
    particles := st1.particles.filter
      (fun p => decide (1/100 < p.opacity) || p.morphing || !st.clearing) }

/-- A scanned pixel of `create_from_image`: `(px, py, r, g, b)`. -/
abbrev Pixel := ℕ × ℕ × ℕ × ℕ × ℕ

/-- The pixel scan of `create_from_image`: `for i in range(img_w*img_h)`
with an early `break` as soon as byte index `3*i + 2` falls outside the
buffer, keeping pixels whose channel sum exceeds the brightness
threshold 15.  The first argument is the remaining iteration count. -/
def validPixelsAux (rgb : List ℕ) (w : ℕ) : ℕ → ℕ → List Pixel
  | 0, _ => []
  | n + 1, i =>
    if rgb.length ≤ 3 * i + 2 then []
    else
      let r := rgb.getD (3 * i) 0
      let g := rgb.getD (3 * i + 1) 0
      let b := rgb.getD (3 * i + 2) 0
      (if 15 < r + g + b then [(i % w, i / w, r, g, b)] else [])
        ++ validPixelsAux rgb w n (i + 1)

/-- The `valid_pixels` list collected by `create_from_image`. -/
def validPixels (rgb : List ℕ) (w h : ℕ) : List Pixel :=
  validPixelsAux rgb w (w * h) 0

/-- One emitted particle's random draws: `random.uniform(0, tau)` values
for the two angles and the phase, and the three raw `random()` draws
behind the angular speeds and the orbit radius. -/
structure ParticleDraw where
  axy : ℚ := 0
  axz : ℚ := 0
  u1 : ℚ := 0
  u2 : ℚ := 0
  u3 : ℚ := 0
  phase : ℚ := 0

/-- The particle built for the `k`-th emitted sample of
`create_from_image` (randomness taken from the draw stream `rnd`). -/
def mkImageParticle (rnd : ℕ → ParticleDraw) (st : ParticleRenderer)
    (scale offset_x offset_y : ℚ) (k : ℕ) (px : Pixel) : Particle :=
  let screen_x := offset_x + (px.1 : ℚ) * scale
  let screen_y := offset_y + (px.2.1 : ℚ) * scale
  let d := rnd k
  { x := if !st.has_image then st.width / 2 else screen_x
    y := if !st.has_image then st.height / 2 else screen_y
    home_x := screen_x
    home_y := screen_y
    target_home_x := screen_x
    target_home_y := screen_y
    r := (px.2.2.1 : ℤ)
    g := (px.2.2.2.1 : ℤ)
    b := (px.2.2.2.2 : ℤ)
    target_r := (px.2.2.1 : ℤ)
    target_g := (px.2.2.2.1 : ℤ)
    target_b := (px.2.2.2.2 : ℤ)
    opacity := 0
    target_opacity := 1
    morphing := false
    angle_xy := d.axy
    angle_xz := d.axz
    angular_speed_xy := 1/2 + d.u1
    angular_speed_xz := 3/10 + d.u2 * (67/100)
    orbit_radius := st.config.dispersion * d.u3
    phase := d.phase }

/-- The accumulator sampling loop of `create_from_image`: emit one
particle each time the running counter crosses `stride`, stopping once
`target_count` particles have been emitted.  `k` counts emissions. -/
def sampleLoop (rnd : ℕ → ParticleDraw) (st : ParticleRenderer)
    (stride scale offset_x offset_y : ℚ) (tc : ℤ) :
    ℚ → ℕ → List Pixel → List Particle
  | _, _, [] => []
  | acc, k, px :: rest =>
    if stride ≤ acc + 1 then
      if tc ≤ (k + 1 : ℤ) then [mkImageParticle rnd st scale offset_x offset_y k px]
      else mkImageParticle rnd st scale offset_x offset_y k px
        :: sampleLoop rnd st stride scale offset_x offset_y tc (acc + 1 - stride) (k + 1) rest
    else sampleLoop rnd st stride scale offset_x offset_y tc (acc + 1) k rest

/-- The new-particle list built by `create_from_image` when the valid
pixel list is nonempty (scaling, stride, accumulator walk). -/
def imageParticles (rnd : ℕ → ParticleDraw) (st : ParticleRenderer)
    (rgb : List ℕ) (img_w img_h : ℕ) : List Particle :=
  let valid := validPixels rgb img_w img_h
  let target_count : ℤ := min st.target_config.particle_count 800
  let scale_x := st.width * (85/100) / (img_w : ℚ)
  let scale_y := st.height * (85/100) / (img_h : ℚ)
  let scale := min scale_x scale_y
  let offset_x := (st.width - (img_w : ℚ) * scale) / 2
  let offset_y := (st.height - (img_h : ℚ) * scale) / 2
  let stride := max 1 ((valid.length : ℚ) / (target_count : ℚ))
  sampleLoop rnd st stride scale offset_x offset_y target_count 0 0 valid

/-- `ParticleRenderer.create_from_image`.  Returns `none` exactly where
the Python raises: `len(valid_pixels) / target_count` divides by zero
when `min(particle_count, 800) == 0` and at least one pixel passed the
brightness filter.  On the empty-filter early return the state is
untouched. -/
def createFromImage (rnd : ℕ → ParticleDraw) (st : ParticleRenderer)
    (rgb : List ℕ) (img_w img_h : ℕ) : Option ParticleRenderer :=
  let valid := validPixels rgb img_w img_h
  if valid = [] then some st
  else if min st.target_config.particle_count 800 = 0 then none
  else some { st with
    particles := imageParticles rnd st rgb img_w img_h
    has_image := true
    clearing := false }

/-- Hex digit value, as accepted by Python `int(s, 16)`. -/
def hexVal (c : Char) : Option ℕ :=
  if '0' ≤ c ∧ c ≤ '9' then some (c.toNat - 48)
  else if 'a' ≤ c ∧ c ≤ 'f' then some (c.toNat - 87)
  else if 'A' ≤ c ∧ c ≤ 'F' then some (c.toNat - 55)
  else none

/-- ASCII whitespace stripped by Python `int()`. -/
def isPySpace (c : Char) : Bool :=
  c = ' ' ∨ c = Char.ofNat 9 ∨ c = Char.ofNat 10 ∨ c = Char.ofNat 11
    ∨ c = Char.ofNat 12 ∨ c = Char.ofNat 13

/-- Python `int(s, 16)` on a two-character slice: two hex digits, or one
hex digit with a stripped leading/trailing whitespace character or a
leading sign; anything else raises `ValueError` (`none` here). -/
def pyIntHex2 (a b : Char) : Option ℤ :=
  match hexVal a, hexVal b with
  | some x, some y => some (16 * x + y : ℕ)
  | some x, none => if isPySpace b then some (x : ℕ) else none
  | none, some y =>
    if isPySpace a then some (y : ℕ)
    else if a = '+' then some (y : ℕ)
    else if a = '-' then some (-(y : ℤ))
    else none
  | none, none => none

/-- The background-color block of `render_frame`: a string passing
`bg.startswith("#") and len(bg) == 7` — i.e. whose character list is
`'#'` followed by exactly six characters — has its three 2-character
slices parsed by `int(_, 16)` (`none` = a `ValueError` escapes); every
other string falls back to black. -/
def parseBgColor (bg : String) : Option (ℤ × ℤ × ℤ) :=
  match bg.toList with
  | ['#', c1, c2, c3, c4, c5, c6] =>
    match pyIntHex2 c1 c2, pyIntHex2 c3 c4, pyIntHex2 c5 c6 with
    | some r, some g, some b => some (r, g, b)
    | _, _, _ => none
  | _ => some (0, 0, 0)

/-- One particle-drawing call issued by `render_frame`. -/
structure DrawCmd where
  shape : String
  sx : ℤ
  sy : ℤ
  r : ℤ
  g : ℤ
  b : ℤ
deriving DecidableEq

/-- The particle-drawing loop of `render_frame` (`for i in range(effective)`),
skipping near-transparent and off-canvas particles; unknown shapes fall
through the `if/elif` chain and draw nothing. -/
def drawParticles (st : ParticleRenderer) (size : ℤ) (eff : ℤ) :
    ℕ → List Particle → List DrawCmd
  | _, [] => []
  | i, p :: ps =>
    if eff ≤ (i : ℤ) then []
    else
      let rest := drawParticles st size eff (i + 1) ps
      if p.opacity < 1/20 then rest
      else
        let sx := ratTrunc (p.x + 1/2)
        let sy := ratTrunc (p.y + 1/2)
        if sx < -size ∨ st.width + (size : ℚ) ≤ (sx : ℚ)
            ∨ sy < -size ∨ st.height + (size : ℚ) ≤ (sy : ℚ) then rest
        else
          let dr := min 255 (ratTrunc ((p.r : ℚ) * p.opacity))
          let dg := min 255 (ratTrunc ((p.g : ℚ) * p.opacity))
          let db := min 255 (ratTrunc ((p.b : ℚ) * p.opacity))
          if st.config.shape = "circle" ∨ st.config.shape = "square"
              ∨ st.config.shape = "star" then
            { shape := st.config.shape, sx := sx, sy := sy,
              r := dr, g := dg, b := db } :: rest
          else rest

/-- `ParticleRenderer.render_frame`, modelled up to the PIL surface: the
background parse (whose `ValueError` is the one uncaught exception path
in the source — the glow pass sits in its own `try/except`, and the
randomized link pass issues only non-raising draw calls), the particle
size and effective count, and the deterministic particle draw commands.
`Except.error` marks an exception propagating to the caller. -/
def renderFrame (st : ParticleRenderer) : Except Unit ((ℤ × ℤ × ℤ) × List DrawCmd) :=
  match parseBgColor st.config.bg_color with
  | none => Except.error ()
  | some bgc =>
    let size : ℤ := max 1 (ratTrunc (st.config.particle_size + 1/2))
    let eff : ℤ := min (st.particles.length : ℤ) st.config.particle_count
    Except.ok (bgc, drawParticles st size eff 0 st.particles)

/-! Concrete inputs used by witnesses and counterexamples. -/

/-- A constant draw stream. -/
def zeroDraws : ℕ → ParticleDraw := fun _ => {}

/-- A half-faded particle, used to evaluate the opacity invariant on a
concrete input. -/
def exParticleC1 : Particle :=
  { opacity := 1/2, target_opacity := 9/10, x := 10, y := 20 }

/-- A renderer holding the single particle `exParticleC1`. -/
def exRendererC1 : ParticleRenderer := { particles := [exParticleC1] }

/-- A renderer interpolating `dispersion` from 0 toward 10. -/
def exRendererC3 : ParticleRenderer :=
  { config := { dispersion := 0 }, target_config := { dispersion := 10 } }

/-- A clearing renderer holding one non-morphing particle with opacity
exactly at the pruning threshold 0.01. -/
def exRendererC6 : ParticleRenderer :=
  { particles := [{ opacity := 1/100, morphing := false }], clearing := true }

/-- A non-clearing renderer with two particles. -/
def exRendererC6b : ParticleRenderer :=
  { particles := [{ opacity := 1/100 }, { opacity := 1 }], clearing := false }

/-- Emotional state whose certainty puts the particle-count lerp at
300.6, between truncation (300) and nearest-integer rounding (301). -/
def exStateC4a : ScreenEngineState := { certainty := 1/2000 }

/-- Emotional state whose certainty puts the link-count lerp at 0.8. -/
def exStateC4b : ScreenEngineState := { certainty := 1/100 }

/-- A THINKING state at arousal 1/2. -/
def exStateC5 : ScreenEngineState := { mode := "THINKING", arousal := 1/2 }

/-- An all-black 1×1 RGB buffer. -/
def exRgbBlack : List ℕ := [0, 0, 0]

/-- A bright 1×1 RGB buffer. -/
def exRgbWhite : List ℕ := [255, 255, 255]

/-- A 2×2 buffer truncated after its second pixel's first byte. -/
def exRgbShort : List ℕ := [20, 30, 40, 1, 2, 3, 9]

/-- A renderer whose background color is a seven-character `#`-string
with non-hex digits (`int("zz", 16)` raises `ValueError`). -/
def exRendererBadBg : ParticleRenderer :=
  { config := { bg_color := "#zzzzzz" } }

/-- A renderer whose background color has no `#rrggbb` shape. -/
def exRendererNamedBg : ParticleRenderer :=
  { config := { bg_color := "red" } }

/-- A renderer at its construction defaults. -/
def exRendererEmpty : ParticleRenderer := {}

/-- A send-failure predicate failing exactly client 2. -/
def exFails : ℕ → Bool := fun ws => ws == 2

/-- The freshly constructed emotional state (all fields at their
`__init__` defaults). -/
def exStateC10 : ScreenEngineState := {}

/-! ## Helper lemmas -/

theorem roundHalfEven_cases (q : ℚ) :
    roundHalfEven q = ⌊q⌋ ∨ roundHalfEven q = ⌊q⌋ + 1 := by
  unfold roundHalfEven
  split_ifs <;> simp

theorem roundHalfEven_le {q : ℚ} {m : ℤ} (h : q ≤ (m : ℚ)) : roundHalfEven q ≤ m := by
  rcases roundHalfEven_cases q with hc | hc
  · rw [hc]
    exact Int.floor_le_floor h |>.trans (by simp)
  · rw [hc]
    have hfl : ⌊q⌋ < m := by
      by_contra hcon
      push_neg at hcon
      have hlt : q - ⌊q⌋ < 1/2 := by
        have h1 : (⌊q⌋ : ℚ) ≤ q := Int.floor_le q
        have h2 : (m : ℚ) ≤ (⌊q⌋ : ℚ) := by exact_mod_cast hcon
        linarith
      unfold roundHalfEven at hc
      rw [if_pos hlt] at hc
      omega
    omega

theorem le_roundHalfEven {q : ℚ} {m : ℤ} (h : (m : ℚ) ≤ q) : m ≤ roundHalfEven q := by
  have hfl : m ≤ ⌊q⌋ := Int.le_floor.mpr h
  rcases roundHalfEven_cases q with hc | hc <;> omega

theorem pyRound_le {n : ℕ} {q : ℚ} {m : ℤ} (h : q * 10 ^ n ≤ (m : ℚ)) :
    pyRound n q ≤ (m : ℚ) / 10 ^ n := by
  unfold pyRound
  have hpos : (0 : ℚ) < 10 ^ n := by positivity
  gcongr
  exact_mod_cast roundHalfEven_le h

theorem le_pyRound {n : ℕ} {q : ℚ} {m : ℤ} (h : (m : ℚ) ≤ q * 10 ^ n) :
    (m : ℚ) / 10 ^ n ≤ pyRound n q := by
  unfold pyRound
  have hpos : (0 : ℚ) < 10 ^ n := by positivity
  gcongr
  exact_mod_cast le_roundHalfEven h

theorem clamp01_nonneg (t : ℚ) : 0 ≤ max 0 (min 1 t) := le_max_left _ _

theorem clamp01_le_one (t : ℚ) : max 0 (min 1 t) ≤ 1 :=
  max_le (by norm_num) (min_le_left _ _)

theorem lerpPy_le {a b : ℚ} (t : ℚ) (hab : a ≤ b) : lerpPy a b t ≤ b := by
  unfold lerpPy
  nlinarith [clamp01_nonneg t, clamp01_le_one t]

theorem le_lerpPy {a b : ℚ} (t : ℚ) (hab : a ≤ b) : a ≤ lerpPy a b t := by
  unfold lerpPy
  nlinarith [clamp01_nonneg t, clamp01_le_one t]

theorem broadcastSends_eq (l : List ℕ) (fails : ℕ → Bool) :
    broadcastSends l fails = (l, l.filter fails) := by
  induction l with
  | nil => rfl
  | cons ws rest ih =>
    simp only [broadcastSends, ih]
    cases h : fails ws <;> simp [List.filter_cons, h]

theorem ses_valence (st : ScreenEngineState) (v a c : Option ℚ) (m : Option String) :
    (set_emotional_state st v a c m).valence =
      (match v with | some x => max (-1) (min 1 x) | none => st.valence) := by
  rcases v with _ | v <;> rcases a with _ | a <;> rcases c with _ | c <;>
    rcases m with _ | m <;> rfl

theorem ses_arousal (st : ScreenEngineState) (v a c : Option ℚ) (m : Option String) :
    (set_emotional_state st v a c m).arousal =
      (match a with | some x => max 0 (min 1 x) | none => st.arousal) := by
  rcases v with _ | v <;> rcases a with _ | a <;> rcases c with _ | c <;>
    rcases m with _ | m <;> rfl

theorem ses_certainty (st : ScreenEngineState) (v a c : Option ℚ) (m : Option String) :
    (set_emotional_state st v a c m).certainty =
      (match c with | some x => max 0 (min 1 x) | none => st.certainty) := by
  rcases v with _ | v <;> rcases a with _ | a <;> rcases c with _ | c <;>
    rcases m with _ | m <;> rfl

theorem ses_mode (st : ScreenEngineState) (v a c : Option ℚ) (m : Option String) :
    (set_emotional_state st v a c m).mode = m.getD st.mode := by
  rcases v with _ | v <;> rcases a with _ | a <;> rcases c with _ | c <;>
    rcases m with _ | m <;> rfl

/-! ## Claim theorems -/

/-- Claim C10: starting from a state whose fields are in range, any call
to `ScreenEngine.set_emotional_state` leaves valence in [-1,1] and
arousal/certainty in [0,1] (provided arguments are clamped on entry), a
`None` argument leaves its field unchanged, and the mode is stored
verbatim (no validation). -/
theorem set_emotional_state_clamps (st : ScreenEngineState)
    (v a c : Option ℚ) (m : Option String)
    (hv0 : -1 ≤ st.valence) (hv1 : st.valence ≤ 1)
    (ha0 : 0 ≤ st.arousal) (ha1 : st.arousal ≤ 1)
    (hc0 : 0 ≤ st.certainty) (hc1 : st.certainty ≤ 1) :
    (-1 ≤ (set_emotional_state st v a c m).valence
      ∧ (set_emotional_state st v a c m).valence ≤ 1)
    ∧ (0 ≤ (set_emotional_state st v a c m).arousal
      ∧ (set_emotional_state st v a c m).arousal ≤ 1)
    ∧ (0 ≤ (set_emotional_state st v a c m).certainty
      ∧ (set_emotional_state st v a c m).certainty ≤ 1)
    ∧ (v = none → (set_emotional_state st v a c m).valence = st.valence)
    ∧ (a = none → (set_emotional_state st v a c m).arousal = st.arousal)
    ∧ (c = none → (set_emotional_state st v a c m).certainty = st.certainty)
    ∧ (set_emotional_state st v a c m).mode = m.getD st.mode := by
  refine ⟨?_, ?_, ?_, ?_, ?_, ?_, ses_mode st v a c m⟩
  · rw [ses_valence]
    rcases v with _ | v
    · exact ⟨hv0, hv1⟩
    · exact ⟨le_max_left _ _, max_le (by norm_num) (min_le_left _ _)⟩
  · rw [ses_arousal]
    rcases a with _ | a
    · exact ⟨ha0, ha1⟩
    · exact ⟨le_max_left _ _, max_le (by norm_num) (min_le_left _ _)⟩
  · rw [ses_certainty]
    rcases c with _ | c
    · exact ⟨hc0, hc1⟩
    · exact ⟨le_max_left _ _, max_le (by norm_num) (min_le_left _ _)⟩
  · intro h
    subst h
    rw [ses_valence]
  · intro h
    subst h
    rw [ses_arousal]
  · intro h
    subst h
    rw [ses_certainty]

/-- Witness for C10: the defaults state updated with an out-of-range
valence 5 and an unvalidated mode string. -/
theorem set_emotional_state_clamps_witness :
    (-1 ≤ (set_emotional_state exStateC10 (some 5) none none (some "NOT_A_MODE")).valence
      ∧ (set_emotional_state exStateC10 (some 5) none none (some "NOT_A_MODE")).valence ≤ 1)
    ∧ (0 ≤ (set_emotional_state exStateC10 (some 5) none none (some "NOT_A_MODE")).arousal
      ∧ (set_emotional_state exStateC10 (some 5) none none (some "NOT_A_MODE")).arousal ≤ 1)
    ∧ (0 ≤ (set_emotional_state exStateC10 (some 5) none none (some "NOT_A_MODE")).certainty
      ∧ (set_emotional_state exStateC10 (some 5) none none (some "NOT_A_MODE")).certainty ≤ 1)
    ∧ (some (5 : ℚ) = none →
        (set_emotional_state exStateC10 (some 5) none none (some "NOT_A_MODE")).valence = exStateC10.valence)
    ∧ ((none : Option ℚ) = none →
        (set_emotional_state exStateC10 (some 5) none none (some "NOT_A_MODE")).arousal = exStateC10.arousal)
    ∧ ((none : Option ℚ) = none →
        (set_emotional_state exStateC10 (some 5) none none (some "NOT_A_MODE")).certainty = exStateC10.certainty)
    ∧ (set_emotional_state exStateC10 (some 5) none none (some "NOT_A_MODE")).mode =
        (some "NOT_A_MODE").getD exStateC10.mode :=
  set_emotional_state_clamps exStateC10 (some 5) none none (some "NOT_A_MODE")
    (by norm_num [exStateC10]) (by norm_num [exStateC10])
    (by norm_num [exStateC10]) (by norm_num [exStateC10])
    (by norm_num [exStateC10]) (by norm_num [exStateC10])

/-- Claim C9: `ScreenEngine._broadcast` attempts exactly one send per
currently subscribed client (the attempt list is the subscriber list
itself, in iteration order, with no retries), and afterwards every
client whose send failed is out of the subscriber set while every client
whose send succeeded is still in it. -/
theorem broadcast_once_and_prune (subs : List ℕ) (fails : ℕ → Bool) :
    (broadcast subs fails).1 = subs
    ∧ (∀ ws ∈ subs, fails ws = true → ws ∉ (broadcast subs fails).2)
    ∧ (∀ ws ∈ subs, fails ws = false → ws ∈ (broadcast subs fails).2) := by
  unfold broadcast
  by_cases hempty : subs.isEmpty
  · rw [if_pos hempty]
    rw [List.isEmpty_iff] at hempty
    subst hempty
    simp
  · rw [if_neg hempty]
    rw [broadcastSends_eq]
    refine ⟨rfl, ?_, ?_⟩
    · intro ws hws hf hmem
      rw [List.mem_filter] at hmem
      have hcont : (subs.filter fails).contains ws = true := by
        rw [List.contains_eq_any_beq, List.any_eq_true]
        exact ⟨ws, List.mem_filter.mpr ⟨hws, hf⟩, by simp⟩
      rw [hcont] at hmem
      simp at hmem
    · intro ws hws hf
      rw [List.mem_filter]
      refine ⟨hws, ?_⟩
      simp only [Bool.not_eq_eq_eq_not, Bool.not_true]
      rw [List.contains_eq_any_beq]
      simp only [List.any_eq_false]
      intro x hx
      rw [List.mem_filter] at hx
      intro hbeq
      have hxx : ws = x := by simpa using hbeq
      subst hxx
      rw [hx.2] at hf
      exact Bool.true_eq_false.mp hf

/-- Witness for C9: two subscribers of which exactly client 2 fails. -/
theorem broadcast_once_and_prune_witness :
    (broadcast [1, 2] exFails).1 = [1, 2]
    ∧ (2 : ℕ) ∉ (broadcast [1, 2] exFails).2
    ∧ (1 : ℕ) ∈ (broadcast [1, 2] exFails).2 := by
  have h := broadcast_once_and_prune [1, 2] exFails
  exact ⟨h.1, h.2.1 2 (by simp) rfl, h.2.2 1 (by simp) rfl⟩

/-- Counterexample for C4: `_build_particle_config` converts the
particle-count and link-count lerps with Python `int()` (truncation),
not round-to-nearest: at certainty 1/2000 the particle-count lerp is
300.6, which the code maps to 300 while rounding to the nearest integer
gives 301; at certainty 1/100 the link-count lerp is 0.8, mapped to 0
versus nearest-integer 1. -/
theorem build_config_truncates_not_rounds :
    (build_particle_config exStateC4a).particle_count = 300
    ∧ round (lerpPy 300 1500 exStateC4a.certainty) = 301
    ∧ (build_particle_config exStateC4b).link_count = 0
    ∧ round (lerpPy 0 80 exStateC4b.certainty) = 1 := by
  refine ⟨?_, ?_, ?_, ?_⟩ <;>
    norm_num [build_particle_config, exStateC4a, exStateC4b, lerpPy, ratTrunc, round_eq]

/-- Claim C4 (amended): for certainty in [0,1], `_build_particle_config`
yields `particle_count = ⌊300 + (1500-300)*certainty⌋` and
`link_count = ⌊80*certainty⌋` — the lerp is truncated by `int()`, not
rounded to the nearest integer. -/
theorem build_config_count_trunc (st : ScreenEngineState)
    (h0 : 0 ≤ st.certainty) (h1 : st.certainty ≤ 1) :
    (build_particle_config st).particle_count = ⌊(300 : ℚ) + (1500 - 300) * st.certainty⌋
    ∧ (build_particle_config st).link_count = ⌊(0 : ℚ) + (80 - 0) * st.certainty⌋ := by
  have hclamp : max 0 (min 1 st.certainty) = st.certainty := by
    rw [min_eq_right h1, max_eq_right h0]
  constructor
  · show ratTrunc (lerpPy 300 1500 st.certainty) = _
    simp only [lerpPy, ratTrunc, hclamp]
    rw [if_neg (by nlinarith)]
  · show ratTrunc (lerpPy 0 80 st.certainty) = _
    simp only [lerpPy, ratTrunc, hclamp]
    rw [if_neg (by nlinarith)]

theorem pyRound_int (n : ℕ) (m : ℤ) : pyRound n (m : ℚ) = (m : ℚ) := by
  unfold pyRound roundHalfEven
  have hcast : ((m : ℚ) * 10 ^ n) = ((m * 10 ^ n : ℤ) : ℚ) := by push_cast; ring
  rw [hcast, Int.floor_intCast, if_pos (by norm_num)]
  push_cast
  exact mul_div_cancel_right₀ _ (by positivity)

theorem pyRound_two : pyRound 2 (2 : ℚ) = 2 := by
  simpa using pyRound_int 2 2

/-- Claim C5: the mode overrides of `_build_particle_config`: THINKING
gives animation "swirl_inward", rotation_speed 2.0, dispersion
re-interpolated to [10,40] by arousal, particle_speed floored at 1.0;
TALKING gives "pulse_outward" with particle_speed and pulse_speed
floored at 1.5; LISTENING gives "float" with particle_speed capped at
0.8 and dispersion capped at 30; IDLE gives "drift" with particle_speed
capped at 0.5 and pulse_speed capped at 0.8.  (Numeric fields pass
through Python `round(_, 1)` / `round(_, 2)` on return.) -/
theorem build_config_mode_overrides (st : ScreenEngineState)
    (h0 : 0 ≤ st.arousal) (h1 : st.arousal ≤ 1) :
    (st.mode = "THINKING" →
      (build_particle_config st).animation = "swirl_inward"
      ∧ (build_particle_config st).rotation_speed = 2
      ∧ (build_particle_config st).dispersion = pyRound 1 (lerpPy 10 40 st.arousal)
      ∧ 10 ≤ (build_particle_config st).dispersion
      ∧ (build_particle_config st).dispersion ≤ 40
      ∧ (build_particle_config st).particle_speed
          = pyRound 2 (max (lerpPy (3/10) 3 st.arousal) 1)
      ∧ 1 ≤ (build_particle_config st).particle_speed)
    ∧ (st.mode = "TALKING" →
      (build_particle_config st).animation = "pulse_outward"
      ∧ (build_particle_config st).particle_speed
          = pyRound 2 (max (lerpPy (3/10) 3 st.arousal) (3/2))
      ∧ 3/2 ≤ (build_particle_config st).particle_speed
      ∧ (build_particle_config st).pulse_speed
          = pyRound 2 (max (lerpPy (1/2) 3 st.arousal) (3/2))
      ∧ 3/2 ≤ (build_particle_config st).pulse_speed)
    ∧ (st.mode = "LISTENING" →
      (build_particle_config st).animation = "float"
      ∧ (build_particle_config st).particle_speed
          = pyRound 2 (min (lerpPy (3/10) 3 st.arousal) (4/5))
      ∧ (build_particle_config st).particle_speed ≤ 4/5
      ∧ (build_particle_config st).dispersion
          = pyRound 1 (min (lerpPy 10 100 st.arousal) 30)
      ∧ (build_particle_config st).dispersion ≤ 30)
    ∧ (st.mode = "IDLE" →
      (build_particle_config st).animation = "drift"
      ∧ (build_particle_config st).particle_speed
          = pyRound 2 (min (lerpPy (3/10) 3 st.arousal) (1/2))
      ∧ (build_particle_config st).particle_speed ≤ 1/2
      ∧ (build_particle_config st).pulse_speed
          = pyRound 2 (min (lerpPy (1/2) 3 st.arousal) (4/5))
      ∧ (build_particle_config st).pulse_speed ≤ 4/5) := by
  refine ⟨?_, ?_, ?_, ?_⟩
  · intro h
    simp [build_particle_config, h]
    refine ⟨pyRound_two, ?_, ?_, ?_⟩
    · have hb := le_pyRound (n := 1) (q := lerpPy 10 40 st.arousal) (m := 100)
        (by norm_num; try nlinarith [le_lerpPy (a := 10) (b := 40) st.arousal (by norm_num)])
      norm_num at hb
      simpa using hb
    · have hb := pyRound_le (n := 1) (q := lerpPy 10 40 st.arousal) (m := 400)
        (by norm_num; try nlinarith [lerpPy_le (a := 10) (b := 40) st.arousal (by norm_num)])
      norm_num at hb
      simpa using hb
    · have hb := le_pyRound (n := 2) (q := max (lerpPy (3/10) 3 st.arousal) 1) (m := 100)
        (by norm_num; try nlinarith [le_max_right (lerpPy (3/10) 3 st.arousal) 1])
      norm_num at hb
      simpa using hb
  · intro h
    simp [build_particle_config, h, show ("TALKING" : String) ≠ "THINKING" from by decide]
    constructor
    · have hb := le_pyRound (n := 2) (q := max (lerpPy (3/10) 3 st.arousal) (3/2)) (m := 150)
        (by norm_num; try nlinarith [le_max_right (lerpPy (3/10) 3 st.arousal) (3/2)])
      norm_num at hb
      simpa using hb
    · have hb := le_pyRound (n := 2) (q := max (lerpPy (1/2) 3 st.arousal) (3/2)) (m := 150)
        (by norm_num; try nlinarith [le_max_right (lerpPy (1/2) 3 st.arousal) (3/2)])
      norm_num at hb
      simpa using hb
  · intro h
    simp [build_particle_config, h, show ("LISTENING" : String) ≠ "THINKING" from by decide,
      show ("LISTENING" : String) ≠ "TALKING" from by decide]
    constructor
    · have hb := pyRound_le (n := 2) (q := min (lerpPy (3/10) 3 st.arousal) (4/5)) (m := 80)
        (by norm_num; try nlinarith [min_le_right (lerpPy (3/10) 3 st.arousal) (4/5)])
      norm_num at hb
      simpa using hb
    · have hb := pyRound_le (n := 1) (q := min (lerpPy 10 100 st.arousal) 30) (m := 300)
        (by norm_num; try nlinarith [min_le_right (lerpPy 10 100 st.arousal) 30])
      norm_num at hb
      simpa using hb
  · intro h
    simp [build_particle_config, h, show ("IDLE" : String) ≠ "THINKING" from by decide,
      show ("IDLE" : String) ≠ "TALKING" from by decide,
      show ("IDLE" : String) ≠ "LISTENING" from by decide]
    constructor
    · have hb := pyRound_le (n := 2) (q := min (lerpPy (3/10) 3 st.arousal) (1/2)) (m := 50)
        (by norm_num; try nlinarith [min_le_right (lerpPy (3/10) 3 st.arousal) (1/2)])
      norm_num at hb
      simpa using hb
    · have hb := pyRound_le (n := 2) (q := min (lerpPy (1/2) 3 st.arousal) (4/5)) (m := 80)
        (by norm_num; try nlinarith [min_le_right (lerpPy (1/2) 3 st.arousal) (4/5)])
      norm_num at hb
      simpa using hb

/-- Witness for C4 (amended), at certainty 1/100. -/
theorem build_config_count_trunc_witness :
    (build_particle_config exStateC4b).particle_count
      = ⌊(300 : ℚ) + (1500 - 300) * exStateC4b.certainty⌋
    ∧ (build_particle_config exStateC4b).link_count
      = ⌊(0 : ℚ) + (80 - 0) * exStateC4b.certainty⌋ :=
  build_config_count_trunc exStateC4b (by norm_num [exStateC4b]) (by norm_num [exStateC4b])

/-- Witness for C5: the THINKING override at arousal 1/2. -/
theorem build_config_mode_overrides_witness :
    (build_particle_config exStateC5).animation = "swirl_inward"
    ∧ (build_particle_config exStateC5).rotation_speed = 2
    ∧ (build_particle_config exStateC5).dispersion
        = pyRound 1 (lerpPy 10 40 exStateC5.arousal)
    ∧ 10 ≤ (build_particle_config exStateC5).dispersion
    ∧ (build_particle_config exStateC5).dispersion ≤ 40
    ∧ (build_particle_config exStateC5).particle_speed
        = pyRound 2 (max (lerpPy (3/10) 3 exStateC5.arousal) 1)
    ∧ 1 ≤ (build_particle_config exStateC5).particle_speed :=
  (build_config_mode_overrides exStateC5
    (by norm_num [exStateC5]) (by norm_num [exStateC5])).1 rfl

theorem morphStep_opacity (dt : ℚ) (p : Particle) :
    (morphStep dt p).opacity = p.opacity := by
  unfold morphStep
  split_ifs <;> rfl

theorem morphStep_target_opacity (dt : ℚ) (p : Particle) :
    (morphStep dt p).target_opacity = p.target_opacity := by
  unfold morphStep
  split_ifs <;> rfl

theorem stepParticle_opacity (F : RealFuns) (cfg : ParticleConfig) (clearing : Bool)
    (pp gr cx cy dt : ℚ) (p : Particle) :
    (stepParticle F cfg clearing pp gr cx cy dt p).opacity
      = opacityStep clearing cfg.opacity dt (morphStep dt p) := rfl

theorem easeOpacity_bounds (target_op dt op : ℚ)
    (hdt : 0 ≤ dt) (h0 : 0 ≤ op) (h1 : op ≤ 1)
    (ht0 : 0 ≤ target_op) (ht1 : target_op ≤ 1) :
    0 ≤ easeOpacity target_op dt op ∧ easeOpacity target_op dt op ≤ 1 := by
  unfold easeOpacity
  split_ifs with hlt hgt
  · exact ⟨le_min ht0 (by linarith), (min_le_left _ _).trans ht1⟩
  · exact ⟨ht0.trans (le_max_left _ _), max_le ht1 (by linarith)⟩
  · exact ⟨h0, h1⟩

theorem opacityStep_bounds (clearing : Bool) (cfgOp dt : ℚ) (p : Particle)
    (hdt : 0 ≤ dt) (hop0 : 0 ≤ p.opacity) (hop1 : p.opacity ≤ 1)
    (ht0 : 0 ≤ p.target_opacity) (ht1 : p.target_opacity ≤ 1)
    (hc0 : 0 ≤ cfgOp) (hc1 : cfgOp ≤ 1) :
    0 ≤ opacityStep clearing cfgOp dt p ∧ opacityStep clearing cfgOp dt p ≤ 1 := by
  unfold opacityStep
  refine easeOpacity_bounds _ _ _ hdt hop0 hop1 ?_ ?_
  · cases clearing
    · simpa using mul_nonneg ht0 hc0
    · simp
  · cases clearing
    · simpa using mul_le_one₀ ht1 hc0 hc1
    · simp

theorem fadeParticle_opacity_bounds (dt : ℚ) (p : Particle)
    (hdt : 0 ≤ dt) (hop1 : p.opacity ≤ 1) :
    0 ≤ (fadeParticle dt p).opacity ∧ (fadeParticle dt p).opacity ≤ 1 := by
  unfold fadeParticle
  exact ⟨le_max_left _ _, max_le (by norm_num) (by linarith)⟩

theorem lerpConfig_opacity_bounds (cfg tgt : ParticleConfig) (t : ℚ)
    (ht0 : 0 ≤ t) (ht1 : t ≤ 1)
    (hc0 : 0 ≤ cfg.opacity) (hc1 : cfg.opacity ≤ 1)
    (hg0 : 0 ≤ tgt.opacity) (hg1 : tgt.opacity ≤ 1) :
    0 ≤ (lerpConfig cfg tgt t).opacity ∧ (lerpConfig cfg tgt t).opacity ≤ 1 := by
  show 0 ≤ cfg.opacity + (tgt.opacity - cfg.opacity) * t
    ∧ cfg.opacity + (tgt.opacity - cfg.opacity) * t ≤ 1
  constructor <;> nlinarith

theorem mem_integrateParticles {F : RealFuns} {cfg : ParticleConfig} {clearing : Bool}
    {pp gr cx cy dt : ℚ} {eff : ℤ} :
    ∀ {l : List Particle} {i : ℕ} {q : Particle},
      q ∈ integrateParticles F cfg clearing pp gr cx cy dt eff i l →
      ∃ p ∈ l, q = stepParticle F cfg clearing pp gr cx cy dt p ∨ q = fadeParticle dt p := by
  intro l
  induction l with
  | nil =>
    intro i q h
    simp [integrateParticles] at h
  | cons p ps ih =>
    intro i q h
    rw [integrateParticles] at h
    rcases List.mem_cons.mp h with h1 | h2
    · refine ⟨p, List.mem_cons_self _ _, ?_⟩
      by_cases he : eff ≤ (i : ℤ)
      · right
        rw [h1, if_pos he]
      · left
        rw [h1, if_neg he]
    · obtain ⟨p', hp', hq⟩ := ih h2
      exact ⟨p', List.mem_cons_of_mem _ hp', hq⟩

theorem integrateParticles_length (F : RealFuns) (cfg : ParticleConfig) (clearing : Bool)
    (pp gr cx cy dt : ℚ) (eff : ℤ) :
    ∀ (l : List Particle) (i : ℕ),
      (integrateParticles F cfg clearing pp gr cx cy dt eff i l).length = l.length := by
  intro l
  induction l with
  | nil => intro i; rfl
  | cons p ps ih =>
    intro i
    rw [integrateParticles]
    simp [ih]

theorem update_particles_eq_filter (st : ParticleRenderer) (F : RealFuns) (dt : ℚ) :
    (st.update F dt).particles
      = (st.preprune F dt).particles.filter
          (fun p => decide (1/100 < p.opacity) || p.morphing || !st.clearing) := rfl

/-- Claim C1: for every dt >= 0, if before `update(dt)` every particle's
opacity and target_opacity lie in [0,1] and both `config.opacity` and
`target_config.opacity` lie in [0,1], then after `update(dt)` every
particle's opacity still lies in [0,1] — both for active particles eased
toward their target and for excess particles beyond `particle_count`
being faded out.  Quantified over the transcendental-function oracle. -/
theorem update_opacity_unit_interval (F : RealFuns) (st : ParticleRenderer) (dt : ℚ)
    (hdt : 0 ≤ dt)
    (hp : ∀ p ∈ st.particles, 0 ≤ p.opacity ∧ p.opacity ≤ 1
          ∧ 0 ≤ p.target_opacity ∧ p.target_opacity ≤ 1)
    (hc0 : 0 ≤ st.config.opacity) (hc1 : st.config.opacity ≤ 1)
    (ht0 : 0 ≤ st.target_config.opacity) (ht1 : st.target_config.opacity ≤ 1) :
    ∀ q ∈ (st.update F dt).particles, 0 ≤ q.opacity ∧ q.opacity ≤ 1 := by
  intro q hq
  rw [update_particles_eq_filter] at hq
  have hq' : q ∈ (st.preprune F dt).particles := List.mem_of_mem_filter hq
  have hqint : q ∈ integrateParticles F (lerpConfig st.config st.target_config (min 1 (3 * dt)))
      st.clearing
      (st.pulse_phase + (lerpConfig st.config st.target_config (min 1 (3 * dt))).pulse_speed * dt)
      (st.global_rotation + (lerpConfig st.config st.target_config (min 1 (3 * dt))).rotation_speed * dt)
      (st.width / 2) (st.height / 2) dt
      (min (st.particles.length : ℤ) (lerpConfig st.config st.target_config (min 1 (3 * dt))).particle_count)
      0 st.particles := hq'
  obtain ⟨p, hpmem, hcase⟩ := mem_integrateParticles hqint
  have hcfg := lerpConfig_opacity_bounds st.config st.target_config (min 1 (3 * dt))
    (le_min (by norm_num) (by linarith)) (min_le_left _ _) hc0 hc1 ht0 ht1
  obtain ⟨hpo0, hpo1, hpt0, hpt1⟩ := hp p hpmem
  rcases hcase with hstep | hfade
  · rw [hstep, stepParticle_opacity]
    exact opacityStep_bounds _ _ _ _ hdt
      (by rw [morphStep_opacity]; exact hpo0)
      (by rw [morphStep_opacity]; exact hpo1)
      (by rw [morphStep_target_opacity]; exact hpt0)
      (by rw [morphStep_target_opacity]; exact hpt1)
      hcfg.1 hcfg.2
  · rw [hfade]
    exact fadeParticle_opacity_bounds dt p hdt hpo1

/-- Witness for C1: the single-particle renderer at dt = 0, where the
update fixes the particle, so the surviving particle is `exParticleC1`
itself. -/
theorem update_opacity_unit_interval_witness :
    0 ≤ exParticleC1.opacity ∧ exParticleC1.opacity ≤ 1 :=
  update_opacity_unit_interval trivialRealFuns exRendererC1 0 (le_refl 0)
    (by norm_num [exRendererC1, exParticleC1])
    (by norm_num [exRendererC1]) (by norm_num [exRendererC1])
    (by norm_num [exRendererC1]) (by norm_num [exRendererC1])
    exParticleC1
    (by norm_num [ParticleRenderer.update, ParticleRenderer.preprune, exRendererC1,
      integrateParticles, stepParticle, morphStep, opacityStep, easeOpacity, fadeParticle,
      lerpConfig, trivialRealFuns, exParticleC1, List.filter])

/-- Claim C3: `update(dt)` advances each of the seven interpolated
numeric config fields by `current += (target - current) * min(1.0,
3.0*dt)`; concretely, interpolating dispersion from 0 toward 10, one
step with dt = 1/3 s lands exactly on 10 and one step with dt = 1/30 s
lands exactly on 1. -/
theorem update_config_lerp_step (F : RealFuns) (st : ParticleRenderer) (dt : ℚ) :
    ((st.update F dt).config.particle_size
      = st.config.particle_size
        + (st.target_config.particle_size - st.config.particle_size) * min 1 (3 * dt))
    ∧ ((st.update F dt).config.particle_speed
      = st.config.particle_speed
        + (st.target_config.particle_speed - st.config.particle_speed) * min 1 (3 * dt))
    ∧ ((st.update F dt).config.dispersion
      = st.config.dispersion
        + (st.target_config.dispersion - st.config.dispersion) * min 1 (3 * dt))
    ∧ ((st.update F dt).config.opacity
      = st.config.opacity
        + (st.target_config.opacity - st.config.opacity) * min 1 (3 * dt))
    ∧ ((st.update F dt).config.pulse_speed
      = st.config.pulse_speed
        + (st.target_config.pulse_speed - st.config.pulse_speed) * min 1 (3 * dt))
    ∧ ((st.update F dt).config.rotation_speed
      = st.config.rotation_speed
        + (st.target_config.rotation_speed - st.config.rotation_speed) * min 1 (3 * dt))
    ∧ ((st.update F dt).config.link_opacity
      = st.config.link_opacity
        + (st.target_config.link_opacity - st.config.link_opacity) * min 1 (3 * dt))
    ∧ (exRendererC3.update trivialRealFuns (1/3)).config.dispersion = 10
    ∧ (exRendererC3.update trivialRealFuns (1/30)).config.dispersion = 1 := by
  refine ⟨rfl, rfl, rfl, rfl, rfl, rfl, rfl, ?_, ?_⟩ <;>
    norm_num [ParticleRenderer.update, ParticleRenderer.preprune, exRendererC3, lerpConfig]

/-- Counterexample for C6: a clearing field holding one non-morphing
particle whose opacity at the pruning point is exactly 0.01 — not below
0.01, so the claim as stated predicts it survives — yet `update` removes
it (the code prunes at `opacity <= 0.01`, keeping only `opacity >
0.01`). -/
theorem update_prune_at_threshold_cex :
    exRendererC6.clearing = true
    ∧ (exRendererC6.preprune trivialRealFuns 0).particles.length = 1
    ∧ (exRendererC6.preprune trivialRealFuns 0).particles.all
        (fun p => !(decide (p.opacity < 1/100) && !p.morphing)) = true
    ∧ (exRendererC6.update trivialRealFuns 0).particles = [] := by
  refine ⟨rfl, ?_, ?_, ?_⟩ <;>
    norm_num [ParticleRenderer.update, ParticleRenderer.preprune, exRendererC6,
      integrateParticles, stepParticle, morphStep, opacityStep, easeOpacity, fadeParticle,
      lerpConfig, trivialRealFuns, List.filter, List.all]

/-- Claim C6 (amended): after `update(dt)` a particle of the integrated
list is kept iff NOT (its opacity at the pruning point is at most 0.01,
it is not morphing, and the field is clearing); this filter is the only
removal, so with clearing false the particle-list length is unchanged by
`update`. -/
theorem update_prune_filter (F : RealFuns) (st : ParticleRenderer) (dt : ℚ) :
    ((st.update F dt).particles
      = (st.preprune F dt).particles.filter
          (fun p => !(decide (p.opacity ≤ 1/100) && !p.morphing && st.clearing)))
    ∧ (st.clearing = false → (st.update F dt).particles.length = st.particles.length) := by
  have hpred : ∀ p : Particle,
      (decide ((1:ℚ)/100 < p.opacity) || p.morphing || !st.clearing)
        = !(decide (p.opacity ≤ 1/100) && !p.morphing && st.clearing) := by
    intro p
    by_cases h : (1:ℚ)/100 < p.opacity
    · rw [decide_eq_true h, decide_eq_false (not_le.mpr h)]
      simp
    · rw [decide_eq_false h, decide_eq_true (not_lt.mp h)]
      cases p.morphing <;> cases st.clearing <;> simp
  constructor
  · rw [update_particles_eq_filter]
    exact List.filter_congr (fun p _ => hpred p)
  · intro hcl
    rw [update_particles_eq_filter]
    rw [List.filter_eq_self.mpr]
    · show (integrateParticles _ _ _ _ _ _ _ _ _ 0 st.particles).length = st.particles.length
      exact integrateParticles_length _ _ _ _ _ _ _ _ _ st.particles 0
    · intro a _
      simp [hcl]

/-- Witness for C6 (amended): a non-clearing two-particle field keeps
its length through `update`. -/
theorem update_prune_filter_witness :
    ((exRendererC6b.update trivialRealFuns 0).particles
      = (exRendererC6b.preprune trivialRealFuns 0).particles.filter
          (fun p => !(decide (p.opacity ≤ 1/100) && !p.morphing && exRendererC6b.clearing)))
    ∧ (exRendererC6b.update trivialRealFuns 0).particles.length
        = exRendererC6b.particles.length :=
  ⟨(update_prune_filter trivialRealFuns exRendererC6b 0).1,
   (update_prune_filter trivialRealFuns exRendererC6b 0).2 rfl⟩

theorem sampleLoop_length_bound (rnd : ℕ → ParticleDraw) (st : ParticleRenderer)
    (stride scale ox oy : ℚ) (tc : ℤ) :
    ∀ (l : List Pixel) (acc : ℚ) (k : ℕ), (k : ℤ) < tc →
      ((sampleLoop rnd st stride scale ox oy tc acc k l).length : ℤ) ≤ tc - k := by
  intro l
  induction l with
  | nil =>
    intro acc k hk
    simp [sampleLoop]
    omega
  | cons px rest ih =>
    intro acc k hk
    rw [sampleLoop]
    by_cases hs : stride ≤ acc + 1
    · rw [if_pos hs]
      by_cases he : tc ≤ (k + 1 : ℤ)
      · rw [if_pos he]
        simp
        omega
      · rw [if_neg he]
        have hrec := ih (acc + 1 - stride) (k + 1) (by push_cast; omega)
        simp only [List.length_cons]
        push_cast at hrec ⊢
        omega
    · rw [if_neg hs]
      exact ih (acc + 1) k hk

/-- Claim C2: for every RGB buffer and declared dimensions (and any
positive target particle count, without which the Python divides by
zero), `create_from_image` builds a new particle list of length at most
`min(target_config.particle_count, 800)`, and when no pixel exceeds the
brightness threshold 15 it returns early with the renderer state —
particles, has_image, clearing — unchanged. -/
theorem create_from_image_bound (rnd : ℕ → ParticleDraw) (st : ParticleRenderer)
    (rgb : List ℕ) (img_w img_h : ℕ)
    (hpc : 0 < min st.target_config.particle_count 800) :
    ((imageParticles rnd st rgb img_w img_h).length : ℤ)
        ≤ min st.target_config.particle_count 800
    ∧ (validPixels rgb img_w img_h = [] → createFromImage rnd st rgb img_w img_h = some st)
    ∧ (createFromImage rnd st rgb img_w img_h).isSome = true := by
  refine ⟨?_, ?_, ?_⟩
  · have hb := sampleLoop_length_bound rnd st
      (max 1 (((validPixels rgb img_w img_h).length : ℚ)
        / ((min st.target_config.particle_count 800 : ℤ) : ℚ)))
      (min (st.width * (85/100) / (img_w : ℚ)) (st.height * (85/100) / (img_h : ℚ)))
      ((st.width - (img_w : ℚ)
        * min (st.width * (85/100) / (img_w : ℚ)) (st.height * (85/100) / (img_h : ℚ))) / 2)
      ((st.height - (img_h : ℚ)
        * min (st.width * (85/100) / (img_w : ℚ)) (st.height * (85/100) / (img_h : ℚ))) / 2)
      (min st.target_config.particle_count 800)
      (validPixels rgb img_w img_h) 0 0 (by exact_mod_cast hpc)
    simpa [imageParticles] using hb
  · intro hv
    unfold createFromImage
    rw [if_pos hv]
  · unfold createFromImage
    by_cases hv : validPixels rgb img_w img_h = []
    · rw [if_pos hv]
      rfl
    · rw [if_neg hv, if_neg (by omega)]
      rfl

theorem validPixelsAux_eq (rgb : List ℕ) (w : ℕ) :
    ∀ (n i : ℕ),
      validPixelsAux rgb w n i
        = (List.range' i (min n (rgb.length / 3 - i))).filterMap
            (fun j =>
              if 15 < rgb.getD (3*j) 0 + rgb.getD (3*j+1) 0 + rgb.getD (3*j+2) 0
              then some (j % w, j / w, rgb.getD (3*j) 0, rgb.getD (3*j+1) 0, rgb.getD (3*j+2) 0)
              else none) := by
  intro n
  induction n with
  | zero =>
    intro i
    simp [validPixelsAux]
  | succ n ih =>
    intro i
    rw [validPixelsAux]
    by_cases hb : rgb.length ≤ 3 * i + 2
    · rw [if_pos hb]
      have hz : min (n + 1) (rgb.length / 3 - i) = 0 := by omega
      rw [hz]
      rfl
    · rw [if_neg hb]
      have hmin : min (n + 1) (rgb.length / 3 - i) = (min n (rgb.length / 3 - (i + 1))) + 1 := by
        omega
      rw [hmin, List.range'_succ, List.filterMap_cons, ih (i + 1)]
      by_cases hbr : 15 < rgb.getD (3*i) 0 + rgb.getD (3*i+1) 0 + rgb.getD (3*i+2) 0
      · simp only [if_pos hbr]
        simp
      · simp only [if_neg hbr]
        simp

/-- Claim C7: the pixel scan of `create_from_image` reads exactly the
first `min(img_w*img_h, len(rgb)//3)` complete pixels — terminating
early on a short buffer with whatever was collected — and every byte
index it touches (up to `3*i + 2`) is strictly inside the buffer. -/
theorem valid_pixels_prefix_scan (rgb : List ℕ) (w h : ℕ) :
    validPixels rgb w h
      = (List.range (min (w * h) (rgb.length / 3))).filterMap
          (fun j =>
            if 15 < rgb.getD (3*j) 0 + rgb.getD (3*j+1) 0 + rgb.getD (3*j+2) 0
            then some (j % w, j / w, rgb.getD (3*j) 0, rgb.getD (3*j+1) 0, rgb.getD (3*j+2) 0)
            else none)
    ∧ ∀ i < min (w * h) (rgb.length / 3), 3 * i + 2 < rgb.length := by
  constructor
  · show validPixelsAux rgb w (w * h) 0 = _
    rw [validPixelsAux_eq, List.range_eq_range']
    norm_num
  · intro i hi
    omega

theorem parseBgColor_head_ne (s : String) (c : Char) (cs : List Char)
    (h : s.toList = c :: cs) (hc : c ≠ '#') : parseBgColor s = some (0, 0, 0) := by
  unfold parseBgColor
  split
  · next heq =>
    exfalso
    rw [h] at heq
    injection heq with h1 h2
    exact hc h1
  · rfl

theorem parseBgColor_len_ne (s : String) (h : s.toList.length ≠ 7) :
    parseBgColor s = some (0, 0, 0) := by
  unfold parseBgColor
  split
  · next heq =>
    exfalso
    rw [heq] at h
    simp at h
  · rfl

/-- Claim C8 (amended): `render_frame` is exception-free except for
background parsing: it propagates an exception exactly when the
7-character `#`-shaped bg_color fails Python `int(_, 16)` parsing, while
any bg_color not starting with `#` or not of length 7 falls back to a
black background and the frame is produced; being a pure function of the
state, it never mutates the field. -/
theorem render_frame_error_iff (st : ParticleRenderer) :
    ((renderFrame st).isOk = true ↔ (parseBgColor st.config.bg_color).isSome = true)
    ∧ (∀ c cs, st.config.bg_color.toList = c :: cs → c ≠ '#' →
        (renderFrame st).isOk = true)
    ∧ (st.config.bg_color.toList.length ≠ 7 → (renderFrame st).isOk = true) := by
  have hiff : (renderFrame st).isOk = true ↔ (parseBgColor st.config.bg_color).isSome = true := by
    unfold renderFrame
    rcases hp : parseBgColor st.config.bg_color with _ | bgc <;> simp [hp, Except.isOk, Except.toBool]
  refine ⟨hiff, ?_, ?_⟩
  · intro c cs h hc
    rw [hiff, parseBgColor_head_ne st.config.bg_color c cs h hc]
    rfl
  · intro h
    rw [hiff, parseBgColor_len_ne st.config.bg_color h]
    rfl

/-- Witness for C2: a 1x1 bright image respects the count bound, and a
1x1 all-black image leaves the default renderer untouched. -/
theorem create_from_image_bound_witness :
    ((imageParticles zeroDraws exRendererEmpty exRgbWhite 1 1).length : ℤ)
        ≤ min exRendererEmpty.target_config.particle_count 800
    ∧ createFromImage zeroDraws exRendererEmpty exRgbBlack 1 1 = some exRendererEmpty :=
  ⟨(create_from_image_bound zeroDraws exRendererEmpty exRgbWhite 1 1
      (by norm_num [exRendererEmpty])).1,
   (create_from_image_bound zeroDraws exRendererEmpty exRgbBlack 1 1
      (by norm_num [exRendererEmpty])).2.1
     (by norm_num [validPixels, validPixelsAux, exRgbBlack])⟩

/-- Witness for C7: a 2x2 image whose buffer is cut short after 7 bytes
scans exactly 2 complete pixels and keeps the one bright pixel. -/
theorem valid_pixels_prefix_scan_witness :
    validPixels exRgbShort 2 2 = [(0, 0, 20, 30, 40)]
    ∧ 3 * 0 + 2 < exRgbShort.length :=
  ⟨((valid_pixels_prefix_scan exRgbShort 2 2).1).trans (by decide),
   (valid_pixels_prefix_scan exRgbShort 2 2).2 0 (by decide)⟩

/-- Counterexample for C8: with `bg_color = "#zzzzzz"` (seven characters
starting with `#` but not hex), `render_frame` hits `int("zz", 16)`,
which raises `ValueError`; nothing in `render_frame` catches it (only
the glow pass sits in a `try`), so the exception propagates to the
caller, contradicting the claim that no exception escapes. -/
theorem render_frame_bad_hex_raises :
    exRendererBadBg.config.bg_color = "#zzzzzz"
    ∧ renderFrame exRendererBadBg = Except.error () := by
  constructor
  · rfl
  · simp +decide [renderFrame, exRendererBadBg, parseBgColor, pyIntHex2, hexVal, isPySpace]

/-- Witness for C8 (amended): bg_color "red" has no `#rrggbb` shape, so
the frame is produced without error. -/
theorem render_frame_error_iff_witness :
    (renderFrame exRendererNamedBg).isOk = true :=
  (render_frame_error_iff exRendererNamedBg).2.2 (by decide)
